import Mathlib

/-!
Verification of the EC2-management Lambda handler
(src/backend/lambda.py) against its specification.

The Python source is shallowly embedded: Python values are modelled by
`PVal`, the external collaborators (the EC2 compute API, the SNS
publish API, and the standard-library JSON parser) are modelled by an
environment `Env` of call outcomes, and the handler `lambda_handler`
is a pure function from an environment and an invocation event to
either an uncaught Python exception or a result record together with
the trace of outbound service calls it made.
-/

/-- A Python value, as far as the handler manipulates them: the
dictionary is an association list keyed by strings (every key the
source uses is a string literal). -/
inductive PVal where
  | none
  | str (s : String)
  | int (n : Int)
  | bool (b : Bool)
  | list (xs : List PVal)
  | dict (kvs : List (String × PVal))

/-- Python truthiness: None, "", 0, False, [] and \x7b\x7d are falsy,
everything else is truthy. -/
def truthy : PVal → Bool
  | .none => false
  | .str s => !(s == "")
  | .int n => !(n == 0)
  | .bool b => b
  | .list xs => !xs.isEmpty
  | .dict kvs => !kvs.isEmpty

/-- Python dict.get with an explicit default. -/
def dgetD (kvs : List (String × PVal)) (k : String) (d : PVal) : PVal :=
  match kvs.find? (fun p => p.1 == k) with
  | some p => p.2
  | Option.none => d

/-- Python dict.get with the implicit default None. -/
def dget (kvs : List (String × PVal)) (k : String) : PVal :=
  dgetD kvs k PVal.none

/-- Python str.lower, modelled characterwise (structurally, so that
concrete inputs evaluate in the kernel; it agrees with Python on the
ASCII strings the handler compares against). -/
def pyLower (s : String) : String := String.mk (s.data.map Char.toLower)

/-- Python str.upper, modelled characterwise. -/
def pyUpper (s : String) : String := String.mk (s.data.map Char.toUpper)

/-- The only exception the handler can let escape: a bare AttributeError
raised while extracting the action (everything else it raises is inside
a try block). -/
inductive PyExc where
  | attributeError (msg : String)
deriving DecidableEq

/-- One outbound service call, as recorded in the handler trace. -/
inductive Call where
  | describeInstances
  | startInstances
  | stopInstances
  | waitInstanceRunning (delay maxAttempts : Nat)
  | waitInstanceStopped (delay maxAttempts : Nat)
  | snsPublish (message : String)
deriving DecidableEq

/-- Outcomes of the external collaborators for one invocation.
Provider calls either raise (with the text str(e)) or return; `sns k`
is the outcome of the k-th sns.publish call of the invocation;
`jloads` is json.loads, `Option.none` meaning the parse raised. -/
structure Env where
  jloads : String → Option PVal
  describe : Except String String
  startResult : Except String Unit
  stopResult : Except String Unit
  waitRunning : Except String Unit
  waitStopped : Except String Unit
  sns : Nat → Except String String

/-- Source constant INSTANCE_ID. -/
def INSTANCE_ID : String := "i-0e068c43430210bff"

/-- Source constant SNS_TOPIC_ARN. -/
def SNS_TOPIC_ARN : String := "arn:aws:sns:ap-south-1:your account id:ec2-state-notify"

/-- publish_sms: try sns.publish, return True on success and False on
any failure (the exception is swallowed). `k` indexes which publish of
the invocation this is; `message` is what the source passes. -/
def publish_sms (env : Env) (k : Nat) (message : String) : Bool :=
  match env.sns k with
  | .ok _ => true
  | .error _ => match message with | _ => false

/-- The action-extraction phase of lambda_handler, before lowering:
  action = ""
  if isinstance(event, dict):
      action = event.get(action-key) or (event.get(qsp-key) or
               empty-dict).get(action-key, empty-string)
      if not action and event.get(body-key):
          try: action = json.loads(event[body-key]).get(action-key, "")
          except: pass
The `.get` on a truthy non-dict queryStringParameters raises an
AttributeError outside any try block; every failure in the body branch
is swallowed by the bare except. -/
def rawAction (env : Env) (event : PVal) : Except PyExc PVal :=
  match event with
  | .dict kvs =>
    let a1 := dget kvs "action"
    let step1 : Except PyExc PVal :=
      if truthy a1 then .ok a1
      else
        let qsp := dget kvs "queryStringParameters"
        let qsp2 := if truthy qsp then qsp else .dict []
        match qsp2 with
        | .dict q => .ok (dgetD q "action" (.str ""))
        | _ => .error (.attributeError "object has no attribute get")
    match step1 with
    | .error e => .error e
    | .ok a =>
      if (!truthy a) && truthy (dget kvs "body") then
        match dget kvs "body" with
        | .str b =>
          match env.jloads b with
          | some (.dict m) => .ok (dgetD m "action" (.str ""))
          | some _ => .ok a
          | Option.none => .ok a
        | _ => .ok a
      else .ok a
  | _ => .ok (.str "")

/-- The final normalisation: action = (action or "").lower().
Lowering a truthy non-string raises an AttributeError outside any try
block. -/
def extractAction (env : Env) (event : PVal) : Except PyExc String :=
  match rawAction env event with
  | .error e => .error e
  | .ok a =>
    let a2 := if truthy a then a else .str ""
    match a2 with
    | .str s => .ok (pyLower s)
    | _ => .error (.attributeError "object has no attribute lower")

/-- The record returned by the top-level except branch, with the
notification text it also publishes. -/
def errorRecord (e : String) : PVal :=
  .dict [("result", .str "error"), ("error", .str ("❌ EC2 ERROR: " ++ e))]

/-- The try/except body of lambda_handler: dispatch on the resolved
lowercase action. Every provider exception is converted into an error
record after a best-effort notification, so dispatch is total. The
second component is the trace of outbound calls, in order. -/
def dispatch (env : Env) (action : String) : PVal × List Call :=
    if action = "test" then
      let msg := "TEST: EC2 Monitor - Instance " ++ INSTANCE_ID
      let success := publish_sms env 0 msg
      (.dict [("result", .str "test"), ("sms_sent", .bool success)],
           [.snsPublish msg])
    else if action = "start" then
      match env.describe with
      | .error e =>
        (errorRecord e,
             [.describeInstances, .snsPublish ("❌ EC2 ERROR: " ++ e)])
      | .ok current_state =>
        if current_state = "running" then
          (.dict [("result", .str "already_running")],
               [.describeInstances, .snsPublish "🟢 EC2 - ALREADY RUNNING"])
        else
          match env.startResult with
          | .error e =>
            (errorRecord e,
                 [.describeInstances, .snsPublish "🟡 EC2 - STARTING...",
                  .startInstances, .snsPublish ("❌ EC2 ERROR: " ++ e)])
          | .ok _ =>
            match env.waitRunning with
            | .error e =>
              (errorRecord e,
                   [.describeInstances, .snsPublish "🟡 EC2 - STARTING...",
                    .startInstances, .waitInstanceRunning 10 12,
                    .snsPublish ("❌ EC2 ERROR: " ++ e)])
            | .ok _ =>
              (.dict [("result", .str "started")],
                   [.describeInstances, .snsPublish "🟡 EC2 - STARTING...",
                    .startInstances, .waitInstanceRunning 10 12,
                    .snsPublish "✅ EC2 - STARTED SUCCESS"])
    else if action = "stop" then
      match env.stopResult with
      | .error e =>
        (errorRecord e,
             [.snsPublish "🟡 EC2 - STOPPING...", .stopInstances,
              .snsPublish ("❌ EC2 ERROR: " ++ e)])
      | .ok _ =>
        match env.waitStopped with
        | .error e =>
          (errorRecord e,
               [.snsPublish "🟡 EC2 - STOPPING...", .stopInstances,
                .waitInstanceStopped 10 12,
                .snsPublish ("❌ EC2 ERROR: " ++ e)])
        | .ok _ =>
          (.dict [("result", .str "stopped")],
               [.snsPublish "🟡 EC2 - STOPPING...", .stopInstances,
                .waitInstanceStopped 10 12,
                .snsPublish "🛑 EC2 - STOPPED SUCCESS"])
    else
      match env.describe with
      | .error e =>
        (errorRecord e,
             [.describeInstances, .snsPublish ("❌ EC2 ERROR: " ++ e)])
      | .ok state =>
        let state_icon := if state = "running" then "🟢" else "🛑"
        (.dict [("result", .str "status"), ("state", .str state)],
             [.describeInstances,
              .snsPublish (state_icon ++ " EC2 - " ++ pyUpper state)])

/-- lambda_handler: extract the action from the event (an extraction
failure is an exception escaping the handler, since that phase is
outside the try block), then run the try/except body. -/
def lambda_handler (env : Env) (event : PVal) : Except PyExc (PVal × List Call) :=
  match extractAction env event with
  | .error e => .error e
  | .ok action => .ok (dispatch env action)

/-- Number of compute-control calls (describe/start/stop/wait) in a
trace. -/
def computeCalls (t : List Call) : Nat :=
  (t.filter (fun c => match c with | .snsPublish _ => false | _ => true)).length

/-- Number of notification publishes in a trace. -/
def snsCalls (t : List Call) : Nat :=
  (t.filter (fun c => match c with | .snsPublish _ => true | _ => false)).length

/-- The messages published on a trace, in order. -/
def snsMessages : List Call → List String
  | [] => []
  | .snsPublish m :: t => m :: snsMessages t
  | _ :: t => snsMessages t

/-- The "result" field of a result record. -/
def resultTag (r : PVal) : PVal :=
  match r with
  | .dict kvs => dget kvs "result"
  | _ => .none

/-- The text of the first provider-call failure, if any, on the branch
the given resolved action dispatches to. -/
def providerFailure (env : Env) (a : String) : Option String :=
  if a = "test" then Option.none
  else if a = "start" then
    match env.describe with
    | .error e => some e
    | .ok st =>
      if st = "running" then Option.none
      else
        match env.startResult with
        | .error e => some e
        | .ok _ =>
          match env.waitRunning with
          | .error e => some e
          | .ok _ => Option.none
  else if a = "stop" then
    match env.stopResult with
    | .error e => some e
    | .ok _ =>
      match env.waitStopped with
      | .error e => some e
      | .ok _ => Option.none
  else
    match env.describe with
    | .error e => some e
    | .ok _ => Option.none

/-- A concrete environment: every external call succeeds and describe
reports a stopped instance. -/
def envStopped : Env where
  jloads := fun _ => Option.none
  describe := .ok "stopped"
  startResult := .ok ()
  stopResult := .ok ()
  waitRunning := .ok ()
  waitStopped := .ok ()
  sns := fun _ => .ok "message-id-1"

/-- As envStopped, but describe reports a running instance. -/
def envRunning : Env := { envStopped with describe := .ok "running" }

/-- As envStopped, but describe raises with text "boom". -/
def envDescribeFails : Env := { envStopped with describe := .error "boom" }

/-- As envStopped, but the JSON parser returns an object carrying
action "stop" for the body string "J", and fails on anything else. -/
def envBodyStop : Env :=
  { envStopped with
    jloads := fun b =>
      if b = "J" then some (.dict [("action", .str "stop")]) else Option.none }

/-- The event with a top-level action "start". -/
def evStart : PVal := .dict [("action", .str "start")]

/-- The event with a top-level action "stop". -/
def evStop : PVal := .dict [("action", .str "stop")]

/-- The event with a top-level action "test". -/
def evTest : PVal := .dict [("action", .str "test")]

/-- The empty event (no action anywhere). -/
def evEmpty : PVal := .dict []

theorem lambda_handler_eq_dispatch (env : Env) (event : PVal) (a : String)
    (h : extractAction env event = .ok a) :
    lambda_handler env event = .ok (dispatch env a) := by
  unfold lambda_handler
  rw [h]

theorem dispatch_test (env : Env) :
    dispatch env "test" =
      (.dict [("result", .str "test"),
              ("sms_sent", .bool (publish_sms env 0
                ("TEST: EC2 Monitor - Instance " ++ INSTANCE_ID)))],
       [.snsPublish ("TEST: EC2 Monitor - Instance " ++ INSTANCE_ID)]) := by
  unfold dispatch
  simp

theorem dispatch_start_running (env : Env)
    (hdesc : env.describe = .ok "running") :
    dispatch env "start" =
      (.dict [("result", .str "already_running")],
       [.describeInstances, .snsPublish "🟢 EC2 - ALREADY RUNNING"]) := by
  unfold dispatch
  rw [hdesc]
  simp

theorem dispatch_start_not_running (env : Env) (st : String)
    (hdesc : env.describe = .ok st) (hst : st ≠ "running")
    (hstart : env.startResult = .ok ()) (hwait : env.waitRunning = .ok ()) :
    dispatch env "start" =
      (.dict [("result", .str "started")],
       [.describeInstances, .snsPublish "🟡 EC2 - STARTING...",
        .startInstances, .waitInstanceRunning 10 12,
        .snsPublish "✅ EC2 - STARTED SUCCESS"]) := by
  unfold dispatch
  rw [hdesc, hstart, hwait]
  simp [hst]

theorem dispatch_stop_ok (env : Env)
    (hstop : env.stopResult = .ok ()) (hwait : env.waitStopped = .ok ()) :
    dispatch env "stop" =
      (.dict [("result", .str "stopped")],
       [.snsPublish "🟡 EC2 - STOPPING...", .stopInstances,
        .waitInstanceStopped 10 12,
        .snsPublish "🛑 EC2 - STOPPED SUCCESS"]) := by
  unfold dispatch
  rw [hstop, hwait]
  simp

theorem dispatch_default_ok (env : Env) (a st : String)
    (ht : a ≠ "test") (hs : a ≠ "start") (hp : a ≠ "stop")
    (hdesc : env.describe = .ok st) :
    dispatch env a =
      (.dict [("result", .str "status"), ("state", .str st)],
       [.describeInstances,
        .snsPublish ((if st = "running" then "🟢" else "🛑")
          ++ " EC2 - " ++ pyUpper st)]) := by
  unfold dispatch
  rw [hdesc]
  simp [ht, hs, hp]

theorem dispatch_start_describe_error (env : Env) (e : String)
    (hdesc : env.describe = .error e) :
    dispatch env "start" =
      (errorRecord e,
       [.describeInstances, .snsPublish ("❌ EC2 ERROR: " ++ e)]) := by
  unfold dispatch
  rw [hdesc]
  simp

theorem dispatch_start_start_error (env : Env) (st e : String)
    (hdesc : env.describe = .ok st) (hst : st ≠ "running")
    (hstart : env.startResult = .error e) :
    dispatch env "start" =
      (errorRecord e,
       [.describeInstances, .snsPublish "🟡 EC2 - STARTING...",
        .startInstances, .snsPublish ("❌ EC2 ERROR: " ++ e)]) := by
  unfold dispatch
  rw [hdesc, hstart]
  simp [hst]

theorem dispatch_start_wait_error (env : Env) (st e : String)
    (hdesc : env.describe = .ok st) (hst : st ≠ "running")
    (hstart : env.startResult = .ok ()) (hwait : env.waitRunning = .error e) :
    dispatch env "start" =
      (errorRecord e,
       [.describeInstances, .snsPublish "🟡 EC2 - STARTING...",
        .startInstances, .waitInstanceRunning 10 12,
        .snsPublish ("❌ EC2 ERROR: " ++ e)]) := by
  unfold dispatch
  rw [hdesc, hstart, hwait]
  simp [hst]

theorem dispatch_stop_stop_error (env : Env) (e : String)
    (hstop : env.stopResult = .error e) :
    dispatch env "stop" =
      (errorRecord e,
       [.snsPublish "🟡 EC2 - STOPPING...", .stopInstances,
        .snsPublish ("❌ EC2 ERROR: " ++ e)]) := by
  unfold dispatch
  rw [hstop]
  simp

theorem dispatch_stop_wait_error (env : Env) (e : String)
    (hstop : env.stopResult = .ok ()) (hwait : env.waitStopped = .error e) :
    dispatch env "stop" =
      (errorRecord e,
       [.snsPublish "🟡 EC2 - STOPPING...", .stopInstances,
        .waitInstanceStopped 10 12,
        .snsPublish ("❌ EC2 ERROR: " ++ e)]) := by
  unfold dispatch
  rw [hstop, hwait]
  simp

theorem dispatch_default_error (env : Env) (a e : String)
    (ht : a ≠ "test") (hs : a ≠ "start") (hp : a ≠ "stop")
    (hdesc : env.describe = .error e) :
    dispatch env a =
      (errorRecord e,
       [.describeInstances, .snsPublish ("❌ EC2 ERROR: " ++ e)]) := by
  unfold dispatch
  rw [hdesc]
  simp [ht, hs, hp]

theorem dispatch_error_characterisation (env : Env) (a : String) :
    (∀ e, providerFailure env a = some e → (dispatch env a).1 = errorRecord e) ∧
    (providerFailure env a = Option.none →
      resultTag (dispatch env a).1 ≠ .str "error") := by
  by_cases hT : a = "test"
  · subst hT
    refine ⟨fun e he => ?_, fun _ => ?_⟩
    · simp [providerFailure] at he
    · rw [dispatch_test]
      simp [resultTag, dget, dgetD, List.find?]
  · by_cases hS : a = "start"
    · subst hS
      cases hD : env.describe with
      | error e =>
        refine ⟨fun e' he' => ?_, fun hnone => ?_⟩
        · simp [providerFailure, hD] at he'
          subst he'
          rw [dispatch_start_describe_error env e hD]
        · simp [providerFailure, hD] at hnone
      | ok st =>
        by_cases hR : st = "running"
        · subst hR
          refine ⟨fun e he => ?_, fun _ => ?_⟩
          · simp [providerFailure, hD] at he
          · rw [dispatch_start_running env hD]
            simp [resultTag, dget, dgetD, List.find?]
        · cases hSt : env.startResult with
          | error e =>
            refine ⟨fun e' he' => ?_, fun hnone => ?_⟩
            · simp [providerFailure, hD, hR, hSt] at he'
              subst he'
              rw [dispatch_start_start_error env st e hD hR hSt]
            · simp [providerFailure, hD, hR, hSt] at hnone
          | ok u =>
            cases u
            cases hW : env.waitRunning with
            | error e =>
              refine ⟨fun e' he' => ?_, fun hnone => ?_⟩
              · simp [providerFailure, hD, hR, hSt, hW] at he'
                subst he'
                rw [dispatch_start_wait_error env st e hD hR hSt hW]
              · simp [providerFailure, hD, hR, hSt, hW] at hnone
            | ok u =>
              cases u
              refine ⟨fun e he => ?_, fun _ => ?_⟩
              · simp [providerFailure, hD, hR, hSt, hW] at he
              · rw [dispatch_start_not_running env st hD hR hSt hW]
                simp [resultTag, dget, dgetD, List.find?]
    · by_cases hP : a = "stop"
      · subst hP
        cases hSt : env.stopResult with
        | error e =>
          refine ⟨fun e' he' => ?_, fun hnone => ?_⟩
          · simp [providerFailure, hSt] at he'
            subst he'
            rw [dispatch_stop_stop_error env e hSt]
          · simp [providerFailure, hSt] at hnone
        | ok u =>
          cases u
          cases hW : env.waitStopped with
          | error e =>
            refine ⟨fun e' he' => ?_, fun hnone => ?_⟩
            · simp [providerFailure, hSt, hW] at he'
              subst he'
              rw [dispatch_stop_wait_error env e hSt hW]
            · simp [providerFailure, hSt, hW] at hnone
          | ok u =>
            cases u
            refine ⟨fun e he => ?_, fun _ => ?_⟩
            · simp [providerFailure, hSt, hW] at he
            · rw [dispatch_stop_ok env hSt hW]
              simp [resultTag, dget, dgetD, List.find?]
      · cases hD : env.describe with
        | error e =>
          refine ⟨fun e' he' => ?_, fun hnone => ?_⟩
          · simp [providerFailure, hT, hS, hP, hD] at he'
            subst he'
            rw [dispatch_default_error env a e hT hS hP hD]
          · simp [providerFailure, hT, hS, hP, hD] at hnone
        | ok st =>
          refine ⟨fun e he => ?_, fun _ => ?_⟩
          · simp [providerFailure, hT, hS, hP, hD] at he
          · rw [dispatch_default_ok env a st hT hS hP hD]
            simp [resultTag, dget, dgetD, List.find?]

/-- C1 counterexample: the claim "for every invocation event, the
handler returns a result record and never raises past the boundary"
is false as stated. On the event whose top-level action field is the
integer 1, the normalisation (action or "").lower() runs outside the
try block and raises an AttributeError that escapes the handler. -/
theorem c1_counterexample :
    lambda_handler envStopped (.dict [("action", .int 1)]) =
      .error (.attributeError "object has no attribute lower") := rfl

/-- C1 (amended): for every invocation event on which the action
extraction phase succeeds (it is the only code outside the try block;
it raises when the event carries a truthy non-string action or a
truthy non-mapping queryStringParameters), the handler returns a
result record and never raises: a provider-call failure on the taken
branch is converted into the error record carrying its text, prefixed
by the error marker, and if no provider call fails the result record
is not an error record — in either case independently of whether any
notification publish succeeds or fails (env.sns is arbitrary). -/
theorem c1_handler_error_conversion (env : Env) (event : PVal) (a : String)
    (hact : extractAction env event = .ok a) :
    ∃ res trace, lambda_handler env event = .ok (res, trace) ∧
      (∀ e, providerFailure env a = some e → res = errorRecord e) ∧
      (providerFailure env a = Option.none → resultTag res ≠ .str "error") := by
  refine ⟨(dispatch env a).1, (dispatch env a).2, ?_,
    (dispatch_error_characterisation env a).1,
    (dispatch_error_characterisation env a).2⟩
  rw [lambda_handler_eq_dispatch env event a hact]

/-- Witness for C1 (amended): instantiated on the event with action
"start" and an environment whose describe call raises "boom". -/
theorem c1_handler_error_conversion_witness :
    extractAction envDescribeFails evStart = .ok "start" ∧
    (∃ res trace, lambda_handler envDescribeFails evStart = .ok (res, trace) ∧
      (∀ e, providerFailure envDescribeFails "start" = some e →
        res = errorRecord e) ∧
      (providerFailure envDescribeFails "start" = Option.none →
        resultTag res ≠ .str "error")) :=
  ⟨rfl, c1_handler_error_conversion envDescribeFails evStart "start" rfl⟩

theorem dgetD_cons_self (k : String) (v : PVal) (t : List (String × PVal))
    (d : PVal) : dgetD ((k, v) :: t) k d = v := by
  simp [dgetD, List.find?]

theorem dgetD_cons_ne (k1 k : String) (v : PVal) (t : List (String × PVal))
    (d : PVal) (h : k1 ≠ k) : dgetD ((k1, v) :: t) k d = dgetD t k d := by
  simp [dgetD, List.find?, beq_eq_false_iff_ne.mpr h]

theorem dgetD_nil (k : String) (d : PVal) : dgetD [] k d = d := rfl

/-- C2: all three input shapes resolve to the same lowercased action;
the top-level field wins over the query-parameter mapping, which wins
over the parsed body; and matching is case-insensitive — "START" and
"start" make the handler behave identically. -/
theorem c2_action_resolution :
    (∀ env (s : String),
      extractAction env (.dict [("action", .str s)]) = .ok (pyLower s)) ∧
    (∀ env (s : String),
      extractAction env
        (.dict [("queryStringParameters", .dict [("action", .str s)])]) =
      .ok (pyLower s)) ∧
    (∀ env (b s : String), b ≠ "" →
      env.jloads b = some (.dict [("action", .str s)]) →
      extractAction env (.dict [("body", .str b)]) = .ok (pyLower s)) ∧
    (∀ env (s t b : String), s ≠ "" →
      extractAction env (.dict [("action", .str s),
        ("queryStringParameters", .dict [("action", .str t)]),
        ("body", .str b)]) = .ok (pyLower s)) ∧
    (∀ env (s b : String), s ≠ "" →
      extractAction env (.dict [("action", .str ""),
        ("queryStringParameters", .dict [("action", .str s)]),
        ("body", .str b)]) = .ok (pyLower s)) ∧
    (∀ env, lambda_handler env (.dict [("action", .str "START")]) =
      lambda_handler env (.dict [("action", .str "start")])) := by
  refine ⟨?_, ?_, ?_, ?_, ?_, ?_⟩
  · intro env s
    by_cases hs : s = ""
    · subst hs
      rfl
    · simp [extractAction, rawAction, dget, dgetD_cons_self, truthy, hs]
  · intro env s
    by_cases hs : s = ""
    · subst hs
      rfl
    · simp [extractAction, rawAction, dget, dgetD_cons_self, dgetD_cons_ne,
        dgetD_nil, truthy, hs]
  · intro env b s hb hj
    by_cases hs : s = ""
    · subst hs
      simp [extractAction, rawAction, dget, dgetD_cons_self, dgetD_cons_ne,
        dgetD_nil, truthy, hb, hj]
    · simp [extractAction, rawAction, dget, dgetD_cons_self, dgetD_cons_ne,
        dgetD_nil, truthy, hb, hj, hs]
  · intro env s t b hs
    simp [extractAction, rawAction, dget, dgetD_cons_self, truthy, hs]
  · intro env s b hs
    simp [extractAction, rawAction, dget, dgetD_cons_self, dgetD_cons_ne,
      dgetD_nil, truthy, hs]
  · intro env
    rw [lambda_handler_eq_dispatch env (.dict [("action", .str "START")])
        "start" rfl,
      lambda_handler_eq_dispatch env (.dict [("action", .str "start")])
        "start" rfl]

/-- Witness for C2: the body shape at the concrete body string "J"
(parsed to an object with action "stop") and the priority conjunct at
concrete distinct action values. -/
theorem c2_action_resolution_witness :
    extractAction envBodyStop (.dict [("body", .str "J")]) =
      .ok (pyLower "stop") ∧
    extractAction envStopped (.dict [("action", .str "START"),
      ("queryStringParameters", .dict [("action", .str "x")]),
      ("body", .str "B")]) = .ok (pyLower "START") :=
  ⟨c2_action_resolution.2.2.1 envBodyStop "J" "stop" (by decide) rfl,
   c2_action_resolution.2.2.2.1 envStopped "START" "x" "B" (by decide)⟩

/-- C3: with resolved action "start" and the provider reporting state
"running", the handler issues no start command and no stop command
(the trace holds only the describe call and one publish), sends the
already-running notification, and returns the already_running
record. -/
theorem c3_start_when_running (env : Env) (event : PVal)
    (hact : extractAction env event = .ok "start")
    (hdesc : env.describe = .ok "running") :
    lambda_handler env event =
      .ok (.dict [("result", .str "already_running")],
           [.describeInstances, .snsPublish "🟢 EC2 - ALREADY RUNNING"]) ∧
    Call.startInstances ∉
      [Call.describeInstances, Call.snsPublish "🟢 EC2 - ALREADY RUNNING"] ∧
    Call.stopInstances ∉
      [Call.describeInstances, Call.snsPublish "🟢 EC2 - ALREADY RUNNING"] := by
  refine ⟨?_, by decide, by decide⟩
  rw [lambda_handler_eq_dispatch env event "start" hact,
    dispatch_start_running env hdesc]

/-- Witness for C3 at the running environment and the event with the
top-level action "start". -/
theorem c3_start_when_running_witness :
    extractAction envRunning evStart = .ok "start" ∧
    envRunning.describe = .ok "running" ∧
    (lambda_handler envRunning evStart =
      .ok (.dict [("result", .str "already_running")],
           [.describeInstances, .snsPublish "🟢 EC2 - ALREADY RUNNING"]) ∧
    Call.startInstances ∉
      [Call.describeInstances, Call.snsPublish "🟢 EC2 - ALREADY RUNNING"] ∧
    Call.stopInstances ∉
      [Call.describeInstances, Call.snsPublish "🟢 EC2 - ALREADY RUNNING"]) :=
  ⟨rfl, rfl, c3_start_when_running envRunning evStart rfl rfl⟩

/-- C4: with resolved action "start" and the instance not reported
running, the handler issues exactly one start command, waits for the
running state with delay 10 and at most 12 attempts, returns the
started record, and publishes exactly two notifications, "starting"
before the start command and "started success" after the wait. -/
theorem c4_start_when_not_running (env : Env) (event : PVal) (st : String)
    (hact : extractAction env event = .ok "start")
    (hdesc : env.describe = .ok st) (hst : st ≠ "running")
    (hstart : env.startResult = .ok ()) (hwait : env.waitRunning = .ok ()) :
    lambda_handler env event =
      .ok (.dict [("result", .str "started")],
           [.describeInstances, .snsPublish "🟡 EC2 - STARTING...",
            .startInstances, .waitInstanceRunning 10 12,
            .snsPublish "✅ EC2 - STARTED SUCCESS"]) ∧
    List.count Call.startInstances
      [Call.describeInstances, Call.snsPublish "🟡 EC2 - STARTING...",
       Call.startInstances, Call.waitInstanceRunning 10 12,
       Call.snsPublish "✅ EC2 - STARTED SUCCESS"] = 1 ∧
    snsMessages
      [Call.describeInstances, Call.snsPublish "🟡 EC2 - STARTING...",
       Call.startInstances, Call.waitInstanceRunning 10 12,
       Call.snsPublish "✅ EC2 - STARTED SUCCESS"] =
      ["🟡 EC2 - STARTING...", "✅ EC2 - STARTED SUCCESS"] := by
  refine ⟨?_, by decide, rfl⟩
  rw [lambda_handler_eq_dispatch env event "start" hact,
    dispatch_start_not_running env st hdesc hst hstart hwait]

/-- Witness for C4 at the all-succeeding environment reporting state
"stopped". -/
theorem c4_start_when_not_running_witness :
    extractAction envStopped evStart = .ok "start" ∧
    envStopped.describe = .ok "stopped" ∧
    ("stopped" : String) ≠ "running" ∧
    lambda_handler envStopped evStart =
      .ok (.dict [("result", .str "started")],
           [.describeInstances, .snsPublish "🟡 EC2 - STARTING...",
            .startInstances, .waitInstanceRunning 10 12,
            .snsPublish "✅ EC2 - STARTED SUCCESS"]) :=
  ⟨rfl, rfl, by decide,
    (c4_start_when_not_running envStopped evStart "stopped" rfl rfl
      (by decide) rfl rfl).1⟩

/-- C5: with resolved action "stop", the handler queries no state
(no describe call appears in the trace), issues exactly one stop
command, waits for the stopped state with delay 10 and at most 12
attempts, returns the stopped record, and publishes "stopping" before
the stop command and "stopped success" after the wait. -/
theorem c5_stop_unconditional (env : Env) (event : PVal)
    (hact : extractAction env event = .ok "stop")
    (hstop : env.stopResult = .ok ()) (hwait : env.waitStopped = .ok ()) :
    lambda_handler env event =
      .ok (.dict [("result", .str "stopped")],
           [.snsPublish "🟡 EC2 - STOPPING...", .stopInstances,
            .waitInstanceStopped 10 12,
            .snsPublish "🛑 EC2 - STOPPED SUCCESS"]) ∧
    Call.describeInstances ∉
      [Call.snsPublish "🟡 EC2 - STOPPING...", Call.stopInstances,
       Call.waitInstanceStopped 10 12,
       Call.snsPublish "🛑 EC2 - STOPPED SUCCESS"] ∧
    List.count Call.stopInstances
      [Call.snsPublish "🟡 EC2 - STOPPING...", Call.stopInstances,
       Call.waitInstanceStopped 10 12,
       Call.snsPublish "🛑 EC2 - STOPPED SUCCESS"] = 1 ∧
    snsMessages
      [Call.snsPublish "🟡 EC2 - STOPPING...", Call.stopInstances,
       Call.waitInstanceStopped 10 12,
       Call.snsPublish "🛑 EC2 - STOPPED SUCCESS"] =
      ["🟡 EC2 - STOPPING...", "🛑 EC2 - STOPPED SUCCESS"] := by
  refine ⟨?_, by decide, by decide, rfl⟩
  rw [lambda_handler_eq_dispatch env event "stop" hact,
    dispatch_stop_ok env hstop hwait]

/-- Witness for C5 at the all-succeeding environment and the event
with the top-level action "stop". -/
theorem c5_stop_unconditional_witness :
    extractAction envStopped evStop = .ok "stop" ∧
    lambda_handler envStopped evStop =
      .ok (.dict [("result", .str "stopped")],
           [.snsPublish "🟡 EC2 - STOPPING...", .stopInstances,
            .waitInstanceStopped 10 12,
            .snsPublish "🛑 EC2 - STOPPED SUCCESS"]) :=
  ⟨rfl, (c5_stop_unconditional envStopped evStop rfl rfl rfl).1⟩

/-- C6: when the body string does not parse as JSON, the handler does
not raise: the parse failure is swallowed, the action resolves to the
empty string, and the invocation behaves exactly like one with no
action present at all (the empty event), which routes to the default
status branch. -/
theorem c6_malformed_body (env : Env) (b : String)
    (hb : env.jloads b = Option.none) :
    extractAction env (.dict [("body", .str b)]) = .ok "" ∧
    lambda_handler env (.dict [("body", .str b)]) =
      lambda_handler env (.dict []) := by
  have hext : extractAction env (.dict [("body", .str b)]) = .ok "" := by
    by_cases hbe : b = ""
    · subst hbe
      rfl
    · simp [extractAction, rawAction, dget, dgetD_cons_self, dgetD_cons_ne,
        dgetD_nil, truthy, hb, hbe]
      rfl
  refine ⟨hext, ?_⟩
  rw [lambda_handler_eq_dispatch env (.dict [("body", .str b)]) "" hext,
    lambda_handler_eq_dispatch env (.dict []) "" rfl]

/-- Witness for C6 at a concrete unparsable body string. -/
theorem c6_malformed_body_witness :
    envStopped.jloads "notjson" = Option.none ∧
    (extractAction envStopped (.dict [("body", .str "notjson")]) = .ok "" ∧
    lambda_handler envStopped (.dict [("body", .str "notjson")]) =
      lambda_handler envStopped (.dict [])) :=
  ⟨rfl, c6_malformed_body envStopped "notjson" rfl⟩

/-- C7: an invocation whose resolved action is empty or none of
"test", "start", "stop" takes the default branch: it queries the
state, returns the status record carrying the reported state, and the
notification carries the running icon exactly when the state string
equals "running", and the stopped/alert icon otherwise. -/
theorem c7_default_status (env : Env) (event : PVal) (a st : String)
    (hact : extractAction env event = .ok a)
    (ht : a ≠ "test") (hs : a ≠ "start") (hp : a ≠ "stop")
    (hdesc : env.describe = .ok st) :
    lambda_handler env event =
      .ok (.dict [("result", .str "status"), ("state", .str st)],
           [.describeInstances,
            .snsPublish ((if st = "running" then "🟢" else "🛑")
              ++ " EC2 - " ++ pyUpper st)]) ∧
    ((if st = "running" then "🟢" else "🛑") = "🟢" ↔ st = "running") := by
  refine ⟨?_, ?_⟩
  · rw [lambda_handler_eq_dispatch env event a hact,
      dispatch_default_ok env a st ht hs hp hdesc]
  · by_cases hr : st = "running"
    · simp [hr]
    · simp [hr]

/-- Witness for C7 at the empty event (action resolves to the empty
string) over the environment reporting state "stopped". -/
theorem c7_default_status_witness :
    extractAction envStopped evEmpty = .ok "" ∧
    lambda_handler envStopped evEmpty =
      .ok (.dict [("result", .str "status"), ("state", .str "stopped")],
           [.describeInstances,
            .snsPublish ((if ("stopped" : String) = "running"
              then "🟢" else "🛑") ++ " EC2 - " ++ pyUpper "stopped")]) :=
  ⟨rfl, (c7_default_status envStopped evEmpty "" "stopped" rfl
    (by decide) (by decide) (by decide) rfl).1⟩

/-- C8: the notification helper returns true exactly when the publish
call succeeds and false exactly when it fails, never propagating the
failure (it is total); and the test branch returns the test record
whose sms_sent field is precisely the helper result on the fixed test
message. -/
theorem c8_publish_sms_contract (env : Env) :
    (∀ (k : Nat) (m : String),
      (publish_sms env k m = true ↔ ∃ mid, env.sns k = .ok mid) ∧
      (publish_sms env k m = false ↔ ∃ err, env.sns k = .error err)) ∧
    (∀ event, extractAction env event = .ok "test" →
      lambda_handler env event =
        .ok (.dict [("result", .str "test"),
              ("sms_sent", .bool (publish_sms env 0
                ("TEST: EC2 Monitor - Instance " ++ INSTANCE_ID)))],
             [.snsPublish ("TEST: EC2 Monitor - Instance " ++ INSTANCE_ID)])) := by
  constructor
  · intro k m
    cases henv : env.sns k with
    | ok mid =>
      constructor
      · simp [publish_sms, henv]
      · simp [publish_sms, henv]
    | error err =>
      constructor
      · simp [publish_sms, henv]
      · simp [publish_sms, henv]
  · intro event hact
    rw [lambda_handler_eq_dispatch env event "test" hact, dispatch_test env]

/-- Witness for C8 at the all-succeeding environment and the event
with the top-level action "test". -/
theorem c8_publish_sms_contract_witness :
    (publish_sms envStopped 0 "hello" = true ↔
      ∃ mid, envStopped.sns 0 = .ok mid) ∧
    lambda_handler envStopped evTest =
      .ok (.dict [("result", .str "test"),
            ("sms_sent", .bool (publish_sms envStopped 0
              ("TEST: EC2 Monitor - Instance " ++ INSTANCE_ID)))],
           [.snsPublish ("TEST: EC2 Monitor - Instance " ++ INSTANCE_ID)]) :=
  ⟨((c8_publish_sms_contract envStopped).1 0 "hello").1,
   (c8_publish_sms_contract envStopped).2 evTest rfl⟩

/-- C10: an event that is not a mapping at all resolves to the empty
action without raising, and the handler routes to the default status
branch. -/
theorem c10_nondict_event (env : Env) (event : PVal)
    (hnd : ∀ kvs, event ≠ .dict kvs) :
    extractAction env event = .ok "" ∧
    (∀ st, env.describe = .ok st →
      lambda_handler env event =
        .ok (.dict [("result", .str "status"), ("state", .str st)],
             [.describeInstances,
              .snsPublish ((if st = "running" then "🟢" else "🛑")
                ++ " EC2 - " ++ pyUpper st)])) := by
  have hext : extractAction env event = .ok "" := by
    cases event with
    | dict kvs => exact absurd rfl (hnd kvs)
    | none => rfl
    | str s => rfl
    | int n => rfl
    | bool b => rfl
    | list xs => rfl
  refine ⟨hext, fun st hdesc => ?_⟩
  rw [lambda_handler_eq_dispatch env event "" hext,
    dispatch_default_ok env "" st (by decide) (by decide) (by decide) hdesc]

/-- Witness for C10 at a bare string event. -/
theorem c10_nondict_event_witness :
    extractAction envStopped (.str "hello") = .ok "" ∧
    (∀ st, envStopped.describe = .ok st →
      lambda_handler envStopped (.str "hello") =
        .ok (.dict [("result", .str "status"), ("state", .str st)],
             [.describeInstances,
              .snsPublish ((if st = "running" then "🟢" else "🛑")
                ++ " EC2 - " ++ pyUpper st)])) :=
  c10_nondict_event envStopped (.str "hello")
    (fun _ h => PVal.noConfusion h)

theorem dispatch_call_bound (env : Env) (a : String) :
    computeCalls (dispatch env a).2 ≤ 3 ∧ snsCalls (dispatch env a).2 ≤ 2 ∧
    (dispatch env a).2.length ≤ 5 := by
  unfold dispatch
  repeat' split
  all_goals (refine ⟨?_, ?_, ?_⟩ <;>
    simp [computeCalls, snsCalls, List.filter])

/-- C9 counterexample: the claim that at most two outbound service
calls are made in the worst case is false. A successful start from the
stopped state performs five outbound calls: describe, start and the
wait (three compute-control calls) plus two notification publishes. -/
theorem c9_counterexample :
    lambda_handler envStopped evStart =
      .ok (.dict [("result", .str "started")],
           [.describeInstances, .snsPublish "🟡 EC2 - STARTING...",
            .startInstances, .waitInstanceRunning 10 12,
            .snsPublish "✅ EC2 - STARTED SUCCESS"]) ∧
    ¬ (computeCalls
        [Call.describeInstances, Call.snsPublish "🟡 EC2 - STARTING...",
         Call.startInstances, Call.waitInstanceRunning 10 12,
         Call.snsPublish "✅ EC2 - STARTED SUCCESS"] +
       snsCalls
        [Call.describeInstances, Call.snsPublish "🟡 EC2 - STARTING...",
         Call.startInstances, Call.waitInstanceRunning 10 12,
         Call.snsPublish "✅ EC2 - STARTED SUCCESS"] ≤ 2) :=
  ⟨rfl, by decide⟩

/-- C9 (amended): every invocation that returns a result record makes
at most five outbound service calls: at most three compute-control
calls (describe, start or stop, and the bounded wait) plus at most two
notification publishes. -/
theorem c9_call_bound (env : Env) (event : PVal) (res : PVal)
    (t : List Call) (h : lambda_handler env event = .ok (res, t)) :
    computeCalls t ≤ 3 ∧ snsCalls t ≤ 2 ∧ t.length ≤ 5 := by
  unfold lambda_handler at h
  cases hE : extractAction env event with
  | error e =>
    rw [hE] at h
    simp at h
  | ok a =>
    rw [hE] at h
    have h2 : dispatch env a = (res, t) := by
      simpa using h
    have hb := dispatch_call_bound env a
    rw [h2] at hb
    exact hb

/-- Witness for C9 (amended) at the successful start invocation. -/
theorem c9_call_bound_witness :
    lambda_handler envStopped evStart =
      .ok (.dict [("result", .str "started")],
           [.describeInstances, .snsPublish "🟡 EC2 - STARTING...",
            .startInstances, .waitInstanceRunning 10 12,
            .snsPublish "✅ EC2 - STARTED SUCCESS"]) ∧
    (computeCalls
        [Call.describeInstances, Call.snsPublish "🟡 EC2 - STARTING...",
         Call.startInstances, Call.waitInstanceRunning 10 12,
         Call.snsPublish "✅ EC2 - STARTED SUCCESS"] ≤ 3 ∧
     snsCalls
        [Call.describeInstances, Call.snsPublish "🟡 EC2 - STARTING...",
         Call.startInstances, Call.waitInstanceRunning 10 12,
         Call.snsPublish "✅ EC2 - STARTED SUCCESS"] ≤ 2 ∧
     List.length
        [Call.describeInstances, Call.snsPublish "🟡 EC2 - STARTING...",
         Call.startInstances, Call.waitInstanceRunning 10 12,
         Call.snsPublish "✅ EC2 - STARTED SUCCESS"] ≤ 5) :=
  ⟨rfl, c9_call_bound envStopped evStart _ _ rfl⟩
